import Mathlib

/-!
Verification of the taxxon tax calculation and cross-validation engine.

Shallow embedding of the TypeScript source:
  src/contexts/TaxFilingContext.tsx       (calculateSummary)
  src/lib/pdf/generate-tax-summary.ts     (valuesMatch, findMatchingT4, validateT4,
                                           validateT5, validateRRSP, validateDonation,
                                           crossCheckDocument, validateAllDocuments,
                                           transformFilingToNetfile)

Modelling conventions:
  - JS numbers are modelled as exact rationals; decimal literals such as 0.205
    denote the exact rational 205/1000.
  - `Array.reduce((sum, x) => sum + f(x), 0)` is modelled by `sumBy`.
  - Structure fields that no engine code ever reads (generated ids, addresses,
    payer and institution display names, enumeration tags such as contributor
    role) are elided from the record shapes; every field the engine reads is
    kept under its source name.
  - TaxSuggestion keeps the fields the engine writes and the claims inspect;
    the generated uuid id and the locale-formatted description text are
    elided (both are nondeterministic or locale dependent and no claim
    depends on them).
-/

namespace Taxxon

/-- JS `list.reduce((sum, x) => sum + f(x), 0)`. -/
def sumBy {α : Type} (l : List α) (f : α → ℚ) : ℚ :=
  l.foldl (fun sum x => sum + f x) 0

/-! ## Filing data model (src: types/tax-filing.ts) -/

/-- T4 - Statement of Remuneration Paid. -/
structure T4Slip where
  employerName : String
  employmentIncome : ℚ
  incomeTaxDeducted : ℚ
  cppContributions : ℚ
  eiPremiums : ℚ
  rppContributions : ℚ
  unionDues : ℚ
  charitableDonations : ℚ
  deriving DecidableEq, Repr

/-- T4A - Statement of Pension, Retirement, Annuity, and Other Income. -/
structure T4ASlip where
  pensionIncome : ℚ
  lumpSumPayments : ℚ
  selfEmployedCommissions : ℚ
  incomeTaxDeducted : ℚ
  otherIncome : ℚ
  deriving DecidableEq, Repr

/-- T4E - Statement of Employment Insurance and Other Benefits. -/
structure T4ESlip where
  eiBenefits : ℚ
  incomeTaxDeducted : ℚ
  amountRepaid : ℚ
  deriving DecidableEq, Repr

/-- T5 - Statement of Investment Income. -/
structure T5Slip where
  actualDividends : ℚ
  interestFromCanadianSources : ℚ
  capitalGainsDividends : ℚ
  foreignIncome : ℚ
  foreignTaxPaid : ℚ
  deriving DecidableEq, Repr

/-- T3 - Statement of Trust Income Allocations and Designations. -/
structure T3Slip where
  capitalGains : ℚ
  eligibleDividends : ℚ
  otherDividends : ℚ
  foreignBusinessIncome : ℚ
  foreignNonBusinessIncome : ℚ
  otherIncome : ℚ
  deriving DecidableEq, Repr

/-- T2202 - Tuition and Enrolment Certificate. -/
structure T2202Slip where
  eligibleTuitionFees : ℚ
  monthsPartTime : ℚ
  monthsFullTime : ℚ
  deriving DecidableEq, Repr

/-- T4RSP - Statement of RRSP Income. -/
structure T4RSPSlip where
  rrspIncome : ℚ
  incomeTaxDeducted : ℚ
  deriving DecidableEq, Repr

/-- T5008 - Statement of Securities Transactions. -/
structure T5008Slip where
  proceeds : ℚ
  costBase : ℚ
  gain : ℚ
  deriving DecidableEq, Repr

/-- RRSP contribution deduction record. -/
structure RRSPContribution where
  contributionAmount : ℚ
  deriving DecidableEq, Repr

/-- Charitable donation deduction record. -/
structure CharitableDonation where
  donationAmount : ℚ
  deriving DecidableEq, Repr

/-- Medical expense deduction record. -/
structure MedicalExpense where
  amount : ℚ
  deriving DecidableEq, Repr

/-- Home office method tag: `flat-rate`, `detailed`, or the unset empty string. -/
inductive HomeOfficeMethod where
  | flatRate
  | detailed
  | unset
  deriving DecidableEq, Repr

structure Deductions where
  rrspContributions : List RRSPContribution
  charitableDonations : List CharitableDonation
  medicalExpenses : List MedicalExpense
  childcareExpenses : ℚ
  homeOfficeDays : ℚ
  homeOfficeMethod : HomeOfficeMethod
  movingExpenses : ℚ
  studentLoanInterest : ℚ
  professionalDues : ℚ
  deriving DecidableEq, Repr

structure IncomeData where
  t4Slips : List T4Slip
  t4aSlips : List T4ASlip
  t4eSlips : List T4ESlip
  t5Slips : List T5Slip
  t3Slips : List T3Slip
  t2202Slips : List T2202Slip
  t4rspSlips : List T4RSPSlip
  t5008Slips : List T5008Slip
  selfEmploymentIncome : ℚ
  otherIncome : ℚ
  deriving DecidableEq, Repr

/-- The aggregate filing root, restricted to the parts the engine reads. -/
structure TaxFiling where
  income : IncomeData
  deductions : Deductions
  deriving DecidableEq, Repr

structure TaxSummary where
  totalIncome : ℚ
  totalDeductions : ℚ
  taxableIncome : ℚ
  federalTax : ℚ
  provincialTax : ℚ
  totalTax : ℚ
  totalCredits : ℚ
  totalPaid : ℚ
  refundOrOwing : ℚ
  deriving DecidableEq, Repr

/-! ## Tax calculation engine (src: contexts/TaxFilingContext.tsx, calculateSummary)

The JS `calculateSummary` first returns an all-zero summary when no current
filing exists; the embedding models the main path, on a present filing. -/

/-- Simplified Canadian federal tax brackets (2024), as in the source if-chain. -/
def federalTax (taxableIncome : ℚ) : ℚ :=
  if taxableIncome > 0 then
    if taxableIncome ≤ 55867 then taxableIncome * 0.15
    else if taxableIncome ≤ 111733 then 8380 + (taxableIncome - 55867) * 0.205
    else if taxableIncome ≤ 173205 then 19833 + (taxableIncome - 111733) * 0.26
    else if taxableIncome ≤ 246752 then 35816 + (taxableIncome - 173205) * 0.29
    else 57144 + (taxableIncome - 246752) * 0.33
  else 0

/-- Simplified provincial tax (Ontario rates), as in the source if-chain. -/
def provincialTax (taxableIncome : ℚ) : ℚ :=
  if taxableIncome > 0 then
    if taxableIncome ≤ 51446 then taxableIncome * 0.0505
    else if taxableIncome ≤ 102894 then 2598 + (taxableIncome - 51446) * 0.0915
    else if taxableIncome ≤ 150000 then 7307 + (taxableIncome - 102894) * 0.1116
    else if taxableIncome ≤ 220000 then 12563 + (taxableIncome - 150000) * 0.1216
    else 21075 + (taxableIncome - 220000) * 0.1316
  else 0

/-- The per-branch federal bracket formulas, named for the continuity claim. -/
def fedBracket1 (x : ℚ) : ℚ := x * 0.15
def fedBracket2 (x : ℚ) : ℚ := 8380 + (x - 55867) * 0.205
def fedBracket3 (x : ℚ) : ℚ := 19833 + (x - 111733) * 0.26
def fedBracket4 (x : ℚ) : ℚ := 35816 + (x - 173205) * 0.29
def fedBracket5 (x : ℚ) : ℚ := 57144 + (x - 246752) * 0.33

/-- The per-branch provincial bracket formulas. -/
def provBracket1 (x : ℚ) : ℚ := x * 0.0505
def provBracket2 (x : ℚ) : ℚ := 2598 + (x - 51446) * 0.0915
def provBracket3 (x : ℚ) : ℚ := 7307 + (x - 102894) * 0.1116
def provBracket4 (x : ℚ) : ℚ := 12563 + (x - 150000) * 0.1216
def provBracket5 (x : ℚ) : ℚ := 21075 + (x - 220000) * 0.1316

/-- The donation credit fold of `calculateSummary`: per record, two-tier. -/
def donationCredits (donations : List CharitableDonation) : ℚ :=
  donations.foldl
    (fun sum d =>
      if d.donationAmount ≤ 200 then sum + d.donationAmount * 0.15
      else sum + 30 + (d.donationAmount - 200) * 0.29)
    0

def calculateSummary (filing : TaxFiling) : TaxSummary :=
  let income := filing.income
  let deductions := filing.deductions
  let t4Income := sumBy income.t4Slips (fun slip => slip.employmentIncome)
  let t4aIncome := sumBy income.t4aSlips (fun slip =>
    slip.pensionIncome + slip.lumpSumPayments + slip.selfEmployedCommissions + slip.otherIncome)
  let t4eIncome := sumBy income.t4eSlips (fun slip => slip.eiBenefits)
  let t5Income := sumBy income.t5Slips (fun slip =>
    slip.actualDividends + slip.interestFromCanadianSources + slip.capitalGainsDividends)
  let t3Income := sumBy income.t3Slips (fun slip =>
    slip.capitalGains * 0.5 + slip.eligibleDividends + slip.otherDividends + slip.otherIncome)
  let t4rspIncome := sumBy income.t4rspSlips (fun slip => slip.rrspIncome)
  let t5008Gains := sumBy income.t5008Slips (fun slip =>
    max 0 (slip.proceeds - slip.costBase) * 0.5)
  let totalIncome :=
    t4Income + t4aIncome + t4eIncome + t5Income + t3Income + t4rspIncome + t5008Gains +
    income.selfEmploymentIncome + income.otherIncome
  let rrspDeductions := sumBy deductions.rrspContributions (fun c => c.contributionAmount)
  let homeOfficeDeduction :=
    if deductions.homeOfficeMethod = HomeOfficeMethod.flatRate
    then deductions.homeOfficeDays * 2 else 0
  let totalDeductions :=
    rrspDeductions + deductions.childcareExpenses + homeOfficeDeduction +
    deductions.movingExpenses + deductions.professionalDues
  let taxableIncome := max 0 (totalIncome - totalDeductions)
  let fedTax := federalTax taxableIncome
  let provTax := provincialTax taxableIncome
  let basicPersonalAmount : ℚ := 15705
  let basicPersonalCredit := basicPersonalAmount * 0.15
  let donationCreditsTotal := donationCredits deductions.charitableDonations
  let medicalCredits :=
    max 0 ((sumBy deductions.medicalExpenses (fun e => e.amount) - totalIncome * 0.03) * 0.15)
  let tuitionCredits := sumBy income.t2202Slips (fun slip => slip.eligibleTuitionFees * 0.15)
  let studentLoanCredit := deductions.studentLoanInterest * 0.15
  let totalCredits :=
    basicPersonalCredit + donationCreditsTotal + medicalCredits + tuitionCredits + studentLoanCredit
  let totalTax := max 0 (fedTax + provTax - totalCredits)
  let t4TaxPaid := sumBy income.t4Slips (fun slip => slip.incomeTaxDeducted)
  let t4aTaxPaid := sumBy income.t4aSlips (fun slip => slip.incomeTaxDeducted)
  let t4eTaxPaid := sumBy income.t4eSlips (fun slip => slip.incomeTaxDeducted)
  let t4rspTaxPaid := sumBy income.t4rspSlips (fun slip => slip.incomeTaxDeducted)
  let totalPaid := t4TaxPaid + t4aTaxPaid + t4eTaxPaid + t4rspTaxPaid
  let refundOrOwing := totalPaid - totalTax
  { totalIncome := totalIncome
    totalDeductions := totalDeductions
    taxableIncome := taxableIncome
    federalTax := fedTax
    provincialTax := provTax
    totalTax := totalTax
    totalCredits := totalCredits
    totalPaid := totalPaid
    refundOrOwing := refundOrOwing }

/-! ## Cross-validation engine (src: lib/pdf/generate-tax-summary.ts) -/

/-- Suggestion type tags (src: types/ai.ts). -/
inductive SuggestionType where
  | missing_deduction
  | validation_error
  | optimization
  | warning
  | info
  deriving DecidableEq, Repr

inductive Priority where
  | high
  | medium
  | low
  deriving DecidableEq, Repr

/-- TaxSuggestion (src: types/ai.ts); uuid id and locale-formatted description
are elided, optional fields are `Option`. -/
structure TaxSuggestion where
  type : SuggestionType
  priority : Priority
  title : String
  affectedFields : List String
  actionLabel : Option String
  actionRoute : Option String
  estimatedImpact : Option ℚ
  deriving DecidableEq, Repr

/-- Document type tags (src: types/tax-filing.ts DocumentType); the hyphenated
JS literals `rrsp-receipt`, `donation-receipt`, `medical-receipt` become
camelCase constructors. -/
inductive DocumentType where
  | t4
  | t4a
  | t4e
  | t5
  | t3
  | t2202
  | t4rsp
  | t5008
  | rrspReceipt
  | donationReceipt
  | medicalReceipt
  | other
  deriving DecidableEq, Repr

/-- Extracted field map. The JS code reads fields out of a
`Record<string, string | number>` via `Number(fields.x) || 0` and
`String(fields.employerName || "")`, so a missing field reads as 0 resp. the
empty string; the embedding therefore models the map as a record of exactly
the fields the engine reads, with those defaults. -/
structure ExtractedFields where
  employerName : String := ""
  employmentIncome : ℚ := 0
  incomeTaxDeducted : ℚ := 0
  cppContributions : ℚ := 0
  eiPremiums : ℚ := 0
  actualDividends : ℚ := 0
  interestFromCanadianSources : ℚ := 0
  contributionAmount : ℚ := 0
  donationAmount : ℚ := 0
  deriving DecidableEq, Repr

structure ExtractedDocumentData where
  documentType : DocumentType
  fields : ExtractedFields
  deriving DecidableEq, Repr

/-- `ValidationResult`; the source field name `matches` is a reserved word in
Lean, so it is written with guillemets. -/
structure ValidationResult where
  isValid : Bool
  discrepancies : List TaxSuggestion
  «matches» : List String
  deriving DecidableEq, Repr

/-- Tolerance for numeric comparisons (1 cent). -/
def NUMERIC_TOLERANCE : ℚ := 0.01

/-- 2 percent difference for larger amounts. -/
def PERCENTAGE_TOLERANCE : ℚ := 0.02

/-- `valuesMatch` from the source; the local `diff` binding is inlined. -/
def valuesMatch (extracted entered : ℚ) : Bool :=
  if extracted = entered then true
  else if max extracted entered < 100 then
    decide (|extracted - entered| ≤ NUMERIC_TOLERANCE)
  else
    decide (|extracted - entered| / max extracted entered ≤ PERCENTAGE_TOLERANCE)

/-- JS `s.includes(t)`: substring containment. -/
def strIncludes (s t : String) : Bool :=
  String.containsSubstr s t.toSubstring

/-- JS `s.toLowerCase()`: per-character lowering over the character list (the
builtin `String.toLower` is written with a byte-position loop that the kernel
cannot evaluate, so the map is taken over `String.data` instead). -/
def strToLower (s : String) : String :=
  ⟨s.data.map Char.toLower⟩

/-- The score the `findMatchingT4` loop body assigns to one slip. -/
def t4MatchScore (extractedData : ExtractedFields) (slip : T4Slip) : Nat :=
  let extractedEmployer := strToLower extractedData.employerName
  let enteredEmployer := strToLower slip.employerName
  let employerScore :=
    if !(extractedEmployer == "") && !(enteredEmployer == "") &&
       (strIncludes extractedEmployer enteredEmployer ||
        strIncludes enteredEmployer extractedEmployer)
    then 3 else 0
  let incomeScore :=
    if decide (extractedData.employmentIncome > 0) &&
       valuesMatch extractedData.employmentIncome slip.employmentIncome
    then 2 else 0
  let taxScore :=
    if decide (extractedData.incomeTaxDeducted > 0) &&
       valuesMatch extractedData.incomeTaxDeducted slip.incomeTaxDeducted
    then 2 else 0
  employerScore + incomeScore + taxScore

/-- `findMatchingT4`: keep the best-scoring slip, strict improvement only. -/
def findMatchingT4 (extractedData : ExtractedFields) (t4Slips : List T4Slip) :
    Option T4Slip × Nat :=
  t4Slips.foldl
    (fun acc slip =>
      let score := t4MatchScore extractedData slip
      if score > acc.2 then (some slip, score) else acc)
    (none, 0)

def t4MismatchSuggestion : TaxSuggestion :=
  { type := SuggestionType.validation_error
    priority := Priority.high
    title := "T4 Data Mismatch Detected"
    affectedFields := ["income.t4Slips"]
    actionLabel := some "Review Income"
    actionRoute := some "/file/income"
    estimatedImpact := none }

def possibleDuplicateT4Suggestion : TaxSuggestion :=
  { type := SuggestionType.warning
    priority := Priority.medium
    title := "Possible Duplicate T4"
    affectedFields := ["income.t4Slips"]
    actionLabel := some "Review T4s"
    actionRoute := some "/file/income"
    estimatedImpact := none }

def newT4Suggestion : TaxSuggestion :=
  { type := SuggestionType.info
    priority := Priority.low
    title := "New T4 Detected"
    affectedFields := ["income.t4Slips"]
    actionLabel := some "Add T4"
    actionRoute := some "/file/income"
    estimatedImpact := none }

/-- The shared else-if branch of the `validateT4` if-chain, reached both when
no slip matched at all (`matchedSlip` null) and when the best score is
below 3. -/
def t4NoMatchBranch (extractedIncome : ℚ) (filing : TaxFiling) : List TaxSuggestion :=
  if extractedIncome > 0 ∧ filing.income.t4Slips.length > 0 then
    match filing.income.t4Slips.find?
        (fun slip => valuesMatch extractedIncome slip.employmentIncome) with
    | some _ => [possibleDuplicateT4Suggestion]
    | none => [newT4Suggestion]
  else []

/-- `validateT4`: the discrepancy markers stand for the description lines the
source accumulates; a suggestion is emitted iff the marker list is
nonempty. -/
def validateT4 (extractedData : ExtractedFields) (filing : TaxFiling) :
    List TaxSuggestion :=
  let extractedIncome := extractedData.employmentIncome
  let extractedTax := extractedData.incomeTaxDeducted
  let extractedCPP := extractedData.cppContributions
  let extractedEI := extractedData.eiPremiums
  match findMatchingT4 extractedData filing.income.t4Slips with
  | (some matchedSlip, matchScore) =>
    if matchScore ≥ 3 then
      let discrepancies : List String :=
        (if decide (extractedIncome > 0) &&
            !(valuesMatch extractedIncome matchedSlip.employmentIncome)
         then ["employmentIncome"] else []) ++
        (if decide (extractedTax > 0) &&
            !(valuesMatch extractedTax matchedSlip.incomeTaxDeducted)
         then ["incomeTaxDeducted"] else []) ++
        (if decide (extractedCPP > 0) &&
            !(valuesMatch extractedCPP matchedSlip.cppContributions)
         then ["cppContributions"] else []) ++
        (if decide (extractedEI > 0) &&
            !(valuesMatch extractedEI matchedSlip.eiPremiums)
         then ["eiPremiums"] else [])
      if discrepancies.length > 0 then [t4MismatchSuggestion] else []
    else t4NoMatchBranch extractedIncome filing
  | (none, _) => t4NoMatchBranch extractedIncome filing

def t5MismatchSuggestion : TaxSuggestion :=
  { type := SuggestionType.validation_error
    priority := Priority.high
    title := "T5 Data Mismatch Detected"
    affectedFields := ["income.t5Slips"]
    actionLabel := some "Review T5"
    actionRoute := some "/file/income"
    estimatedImpact := none }

def validateT5 (extractedData : ExtractedFields) (filing : TaxFiling) :
    List TaxSuggestion :=
  let extractedDividends := extractedData.actualDividends
  let extractedInterest := extractedData.interestFromCanadianSources
  let totalExtracted := extractedDividends + extractedInterest
  if totalExtracted = 0 then []
  else
    match filing.income.t5Slips.find?
        (fun slip =>
          valuesMatch totalExtracted (slip.actualDividends + slip.interestFromCanadianSources)) with
    | some matchedSlip =>
      let discrepancies : List String :=
        (if decide (extractedDividends > 0) &&
            !(valuesMatch extractedDividends matchedSlip.actualDividends)
         then ["actualDividends"] else []) ++
        (if decide (extractedInterest > 0) &&
            !(valuesMatch extractedInterest matchedSlip.interestFromCanadianSources)
         then ["interestFromCanadianSources"] else [])
      if discrepancies.length > 0 then [t5MismatchSuggestion] else []
    | none => []

def additionalRRSPSuggestion (extractedAmount : ℚ) : TaxSuggestion :=
  { type := SuggestionType.info
    priority := Priority.medium
    title := "Additional RRSP Contribution Found"
    affectedFields := ["deductions.rrspContributions"]
    actionLabel := some "Review RRSPs"
    actionRoute := some "/file/deductions"
    estimatedImpact := some (extractedAmount * 0.25) }

def rrspNotClaimedSuggestion (extractedAmount : ℚ) : TaxSuggestion :=
  { type := SuggestionType.missing_deduction
    priority := Priority.high
    title := "RRSP Contribution Not Claimed"
    affectedFields := ["deductions.rrspContributions"]
    actionLabel := some "Add RRSP"
    actionRoute := some "/file/deductions"
    estimatedImpact := some (extractedAmount * 0.25) }

def validateRRSP (extractedData : ExtractedFields) (filing : TaxFiling) :
    List TaxSuggestion :=
  let extractedAmount := extractedData.contributionAmount
  if extractedAmount = 0 then []
  else
    let totalEntered := sumBy filing.deductions.rrspContributions (fun c => c.contributionAmount)
    let matchedContribution := filing.deductions.rrspContributions.find?
      (fun c => valuesMatch extractedAmount c.contributionAmount)
    if matchedContribution.isNone ∧ totalEntered > 0 then
      [additionalRRSPSuggestion extractedAmount]
    else if matchedContribution.isNone ∧ totalEntered = 0 then
      [rrspNotClaimedSuggestion extractedAmount]
    else []

def donationNotClaimedSuggestion : TaxSuggestion :=
  { type := SuggestionType.missing_deduction
    priority := Priority.high
    title := "Donation Not Claimed"
    affectedFields := ["deductions.charitableDonations"]
    actionLabel := some "Add Donation"
    actionRoute := some "/file/deductions"
    estimatedImpact := none }

def validateDonation (extractedData : ExtractedFields) (filing : TaxFiling) :
    List TaxSuggestion :=
  let extractedAmount := extractedData.donationAmount
  if extractedAmount = 0 then []
  else
    let totalEntered := sumBy filing.deductions.charitableDonations (fun d => d.donationAmount)
    let matchedDonation := filing.deductions.charitableDonations.find?
      (fun d => valuesMatch extractedAmount d.donationAmount)
    if matchedDonation.isNone ∧ totalEntered = 0 then
      [donationNotClaimedSuggestion]
    else []

/-- `crossCheckDocument`: dispatch on the document type; unhandled types fall
through the switch with no suggestions. The `matches` list is never written
to in the source. -/
def crossCheckDocument (extracted : ExtractedDocumentData) (filing : TaxFiling) :
    ValidationResult :=
  let discrepancies : List TaxSuggestion :=
    match extracted.documentType with
    | DocumentType.t4 => validateT4 extracted.fields filing
    | DocumentType.t5 => validateT5 extracted.fields filing
    | DocumentType.rrspReceipt => validateRRSP extracted.fields filing
    | DocumentType.donationReceipt => validateDonation extracted.fields filing
    | _ => []
  { isValid :=
      decide ((discrepancies.filter
        (fun d => decide (d.type = SuggestionType.validation_error))).length = 0)
    discrepancies := discrepancies
    «matches» := [] }

/-- The concatenation of the per-document discrepancy lists, in document
order (the push loop of `validateAllDocuments`). -/
def allSuggestions (extractedDocuments : List ExtractedDocumentData) (filing : TaxFiling) :
    List TaxSuggestion :=
  (extractedDocuments.map (fun doc => (crossCheckDocument doc filing).discrepancies)).flatten

/-- The seen-set filter of `validateAllDocuments`: drop a suggestion whose
title was already seen, keep the first occurrence of each title. -/
def dedupByTitle : List String → List TaxSuggestion → List TaxSuggestion
  | _, [] => []
  | seen, s :: rest =>
    if s.title ∈ seen then dedupByTitle seen rest
    else s :: dedupByTitle (s.title :: seen) rest

def validateAllDocuments (extractedDocuments : List ExtractedDocumentData)
    (filing : TaxFiling) : List TaxSuggestion :=
  dedupByTitle [] (allSuggestions extractedDocuments filing)

/-! ## Submission transformer (src: generate-tax-summary.ts, transformFilingToNetfile)

The wire format keeps the numeric sections; `filingId`, `taxYear` and the
copied personal-information strings are elided. -/

structure NetfileIncome where
  totalEmploymentIncome : ℚ
  totalTaxWithheld : ℚ
  totalCPPContributions : ℚ
  totalEIPremiums : ℚ
  investmentIncome : ℚ
  selfEmploymentIncome : ℚ
  otherIncome : ℚ
  deriving DecidableEq, Repr

structure NetfileDeductions where
  rrspContributions : ℚ
  unionDues : ℚ
  childcareExpenses : ℚ
  movingExpenses : ℚ
  otherDeductions : ℚ
  deriving DecidableEq, Repr

structure NetfileCredits where
  basicPersonalAmount : ℚ
  charitableDonations : ℚ
  medicalExpenses : ℚ
  tuitionFees : ℚ
  studentLoanInterest : ℚ
  deriving DecidableEq, Repr

structure NetfileCalculated where
  totalIncome : ℚ
  netIncome : ℚ
  taxableIncome : ℚ
  federalTax : ℚ
  provincialTax : ℚ
  totalTax : ℚ
  totalCredits : ℚ
  refundOrOwing : ℚ
  deriving DecidableEq, Repr

structure NetfileSubmissionRequest where
  income : NetfileIncome
  deductions : NetfileDeductions
  credits : NetfileCredits
  calculated : NetfileCalculated
  deriving DecidableEq, Repr

def transformFilingToNetfile (filing : TaxFiling) (summary : TaxSummary) :
    NetfileSubmissionRequest :=
  let income := filing.income
  let deductions := filing.deductions
  let totalEmploymentIncome := sumBy income.t4Slips (fun slip => slip.employmentIncome)
  let totalTaxWithheld :=
    sumBy income.t4Slips (fun slip => slip.incomeTaxDeducted) +
    sumBy income.t4aSlips (fun slip => slip.incomeTaxDeducted) +
    sumBy income.t4eSlips (fun slip => slip.incomeTaxDeducted)
  let totalCPPContributions := sumBy income.t4Slips (fun slip => slip.cppContributions)
  let totalEIPremiums := sumBy income.t4Slips (fun slip => slip.eiPremiums)
  let investmentIncome :=
    sumBy income.t5Slips (fun slip => slip.actualDividends + slip.interestFromCanadianSources) +
    sumBy income.t3Slips (fun slip => slip.capitalGains * 0.5 + slip.eligibleDividends)
  let rrspContributions := sumBy deductions.rrspContributions (fun c => c.contributionAmount)
  let unionDues := sumBy income.t4Slips (fun slip => slip.unionDues)
  let charitableDonations := sumBy deductions.charitableDonations (fun d => d.donationAmount)
  let medicalExpenses := sumBy deductions.medicalExpenses (fun e => e.amount)
  let tuitionFees := sumBy income.t2202Slips (fun slip => slip.eligibleTuitionFees)
  { income :=
      { totalEmploymentIncome := totalEmploymentIncome
        totalTaxWithheld := totalTaxWithheld
        totalCPPContributions := totalCPPContributions
        totalEIPremiums := totalEIPremiums
        investmentIncome := investmentIncome
        selfEmploymentIncome := income.selfEmploymentIncome
        otherIncome := income.otherIncome }
    deductions :=
      { rrspContributions := rrspContributions
        unionDues := unionDues
        childcareExpenses := deductions.childcareExpenses
        movingExpenses := deductions.movingExpenses
        otherDeductions := deductions.professionalDues }
    credits :=
      { basicPersonalAmount := 15705
        charitableDonations := charitableDonations
        medicalExpenses := medicalExpenses
        tuitionFees := tuitionFees
        studentLoanInterest := deductions.studentLoanInterest }
    calculated :=
      { totalIncome := summary.totalIncome
        netIncome := summary.totalIncome - summary.totalDeductions
        taxableIncome := summary.taxableIncome
        federalTax := summary.federalTax
        provincialTax := summary.provincialTax
        totalTax := summary.totalTax
        totalCredits := summary.totalCredits
        refundOrOwing := summary.refundOrOwing } }

/-! ## Concrete fixtures used by witnesses and counterexamples -/

def emptyIncome : IncomeData :=
  { t4Slips := [], t4aSlips := [], t4eSlips := [], t5Slips := [], t3Slips := []
    t2202Slips := [], t4rspSlips := [], t5008Slips := []
    selfEmploymentIncome := 0, otherIncome := 0 }

def emptyDeductions : Deductions :=
  { rrspContributions := [], charitableDonations := [], medicalExpenses := []
    childcareExpenses := 0, homeOfficeDays := 0
    homeOfficeMethod := HomeOfficeMethod.unset
    movingExpenses := 0, studentLoanInterest := 0, professionalDues := 0 }

def emptyFiling : TaxFiling :=
  { income := emptyIncome, deductions := emptyDeductions }

/-- The two-tier donation credit formula as the spec words it: the first 200
units of each donation at 15 percent, the remainder above 200 at 29
percent. Spec-side definition, compared against `donationCredits`. -/
def specDonationCredit (amount : ℚ) : ℚ :=
  min amount 200 * 0.15 + max (amount - 200) 0 * 0.29

/-! ## Helper lemmas -/

lemma foldl_add_eq {α : Type} (f : α → ℚ) :
    ∀ (l : List α) (c : ℚ), l.foldl (fun sum x => sum + f x) c = c + (l.map f).sum := by
  intro l
  induction l with
  | nil => intro c; simp
  | cons a rest ih =>
    intro c
    simp only [List.foldl_cons, List.map_cons, List.sum_cons, ih]
    ring

lemma sumBy_eq_map_sum {α : Type} (l : List α) (f : α → ℚ) :
    sumBy l f = (l.map f).sum := by
  unfold sumBy
  rw [foldl_add_eq, zero_add]

lemma sumBy_pos {α : Type} (l : List α) (f : α → ℚ)
    (h0 : ∀ x ∈ l, 0 ≤ f x) (hx : ∃ x ∈ l, f x ≠ 0) : 0 < sumBy l f := by
  rw [sumBy_eq_map_sum]
  obtain ⟨x, hxl, hxne⟩ := hx
  have hfx : 0 < f x := lt_of_le_of_ne (h0 x hxl) (Ne.symm hxne)
  have hle : f x ≤ (l.map f).sum := by
    apply List.single_le_sum
    · intro y hy
      obtain ⟨z, hz, rfl⟩ := List.mem_map.mp hy
      exact h0 z hz
    · exact List.mem_map_of_mem f hxl
  linarith

/-! ## Claims about the tax calculation engine -/

/-- Claim C1: for every filing, the summary satisfies
`totalTax = max 0 (federalTax + provincialTax - totalCredits)` and
`refundOrOwing = totalPaid - totalTax`; in particular `totalTax` is never
negative. -/
theorem summary_invariants (filing : TaxFiling) :
    (calculateSummary filing).totalTax =
      max 0 ((calculateSummary filing).federalTax + (calculateSummary filing).provincialTax
        - (calculateSummary filing).totalCredits)
    ∧ (calculateSummary filing).refundOrOwing =
        (calculateSummary filing).totalPaid - (calculateSummary filing).totalTax
    ∧ 0 ≤ (calculateSummary filing).totalTax :=
  ⟨rfl, rfl, le_max_left 0 _⟩

/-- Claim C2, counterexample: at the first federal boundary 55867 the tax
computed from below (55867 × 0.15 = 8380.05) does NOT equal the value of the
next bracket interpolation formula at the boundary (8380): the piecewise
schedule is not continuous there. -/
theorem bracket_discontinuity_cex :
    federalTax 55867 = fedBracket1 55867 ∧ fedBracket1 55867 ≠ fedBracket2 55867 := by
  constructor
  · norm_num [federalTax, fedBracket1]
  · norm_num [fedBracket1, fedBracket2]

/-- Claim C2, amended: at each bracket boundary of the federal schedule
(55867, 111733, 173205, 246752) and at the provincial boundaries 51446,
102894 and 150000, the tax computed from below DIFFERS from the next-bracket
interpolation formula at the same point (the rounded cumulative base amounts
leave jumps), though by at most 1.508; exact continuity holds only at the
provincial boundary 220000. -/
theorem bracket_boundary_gaps :
    (federalTax 55867 = fedBracket1 55867 ∧ fedBracket1 55867 ≠ fedBracket2 55867
      ∧ |fedBracket1 55867 - fedBracket2 55867| ≤ 1.508)
    ∧ (federalTax 111733 = fedBracket2 111733 ∧ fedBracket2 111733 ≠ fedBracket3 111733
      ∧ |fedBracket2 111733 - fedBracket3 111733| ≤ 1.508)
    ∧ (federalTax 173205 = fedBracket3 173205 ∧ fedBracket3 173205 ≠ fedBracket4 173205
      ∧ |fedBracket3 173205 - fedBracket4 173205| ≤ 1.508)
    ∧ (federalTax 246752 = fedBracket4 246752 ∧ fedBracket4 246752 ≠ fedBracket5 246752
      ∧ |fedBracket4 246752 - fedBracket5 246752| ≤ 1.508)
    ∧ (provincialTax 51446 = provBracket1 51446 ∧ provBracket1 51446 ≠ provBracket2 51446
      ∧ |provBracket1 51446 - provBracket2 51446| ≤ 1.508)
    ∧ (provincialTax 102894 = provBracket2 102894 ∧ provBracket2 102894 ≠ provBracket3 102894
      ∧ |provBracket2 102894 - provBracket3 102894| ≤ 1.508)
    ∧ (provincialTax 150000 = provBracket3 150000 ∧ provBracket3 150000 ≠ provBracket4 150000
      ∧ |provBracket3 150000 - provBracket4 150000| ≤ 1.508)
    ∧ (provincialTax 220000 = provBracket4 220000 ∧ provBracket4 220000 = provBracket5 220000) := by
  norm_num [federalTax, provincialTax, fedBracket1, fedBracket2, fedBracket3, fedBracket4,
    fedBracket5, provBracket1, provBracket2, provBracket3, provBracket4, provBracket5, abs_le]

/-- Claim C3: the federal tax computed by `calculateSummary` follows the
five-bracket interpolation schedule with the stated rates and thresholds, is
zero for nonpositive taxable income, and at taxable income 70000 equals
8380 + (70000 − 55867) × 0.205 = 11277.265. -/
theorem federal_schedule :
    (∀ filing : TaxFiling,
      (calculateSummary filing).federalTax = federalTax (calculateSummary filing).taxableIncome)
    ∧ (∀ ti : ℚ, ti ≤ 0 → federalTax ti = 0)
    ∧ (∀ ti : ℚ, 0 < ti → ti ≤ 55867 → federalTax ti = fedBracket1 ti)
    ∧ (∀ ti : ℚ, 55867 < ti → ti ≤ 111733 → federalTax ti = fedBracket2 ti)
    ∧ (∀ ti : ℚ, 111733 < ti → ti ≤ 173205 → federalTax ti = fedBracket3 ti)
    ∧ (∀ ti : ℚ, 173205 < ti → ti ≤ 246752 → federalTax ti = fedBracket4 ti)
    ∧ (∀ ti : ℚ, 246752 < ti → federalTax ti = fedBracket5 ti)
    ∧ federalTax 70000 = 8380 + (70000 - 55867) * 0.205
    ∧ federalTax 70000 = 11277.265 := by
  refine ⟨fun filing => rfl, ?_, ?_, ?_, ?_, ?_, ?_, ?_, ?_⟩
  · intro ti h
    simp only [federalTax]
    split_ifs <;> first | rfl | linarith
  · intro ti h1 h2
    simp only [federalTax, fedBracket1]
    split_ifs <;> first | rfl | linarith
  · intro ti h1 h2
    simp only [federalTax, fedBracket2]
    split_ifs <;> first | rfl | linarith
  · intro ti h1 h2
    simp only [federalTax, fedBracket3]
    split_ifs <;> first | rfl | linarith
  · intro ti h1 h2
    simp only [federalTax, fedBracket4]
    split_ifs <;> first | rfl | linarith
  · intro ti h1
    simp only [federalTax, fedBracket5]
    split_ifs <;> first | rfl | linarith
  · norm_num [federalTax]
  · norm_num [federalTax]

/-- Claim C3, witness: the schedule theorem applied at the concrete taxable
incomes 70000 (second bracket) and −1 (nonpositive). -/
theorem federal_schedule_witness :
    federalTax 70000 = fedBracket2 70000 ∧ federalTax (-1) = 0 :=
  ⟨federal_schedule.2.2.2.1 70000 (by norm_num) (by norm_num),
   federal_schedule.2.1 (-1) (by norm_num)⟩

lemma donationCredits_foldl (l : List CharitableDonation) (c : ℚ) :
    l.foldl
      (fun sum d =>
        if d.donationAmount ≤ 200 then sum + d.donationAmount * 0.15
        else sum + 30 + (d.donationAmount - 200) * 0.29) c
    = c + (l.map (fun d => specDonationCredit d.donationAmount)).sum := by
  induction l generalizing c with
  | nil => simp
  | cons d rest ih =>
    simp only [List.foldl_cons, List.map_cons, List.sum_cons, ih]
    rcases le_or_lt d.donationAmount 200 with h | h
    · rw [if_pos h]
      unfold specDonationCredit
      rw [min_eq_left h, max_eq_right (by linarith)]
      ring
    · rw [if_neg (not_le.mpr h)]
      unfold specDonationCredit
      rw [min_eq_right h.le, max_eq_left (by linarith)]
      ring

/-- Claim C5: the donation credit is the per-record two-tier formula (first
200 units at 15 percent, remainder at 29 percent) summed over records; a
single donation of 200 yields credit 30, a single donation of 300 yields
credit 59. -/
theorem donation_credit_two_tier :
    (∀ donations : List CharitableDonation,
      donationCredits donations =
        (donations.map (fun d => specDonationCredit d.donationAmount)).sum)
    ∧ donationCredits [{ donationAmount := 200 }] = 30
    ∧ donationCredits [{ donationAmount := 300 }] = 59 := by
  refine ⟨?_, ?_, ?_⟩
  · intro donations
    unfold donationCredits
    rw [donationCredits_foldl, zero_add]
  · norm_num [donationCredits, List.foldl]
  · norm_num [donationCredits, List.foldl]

/-! ## Claims about the numeric tolerance policy -/

/-- Claim C6: `valuesMatch a b` holds exactly when a = b, or both are below
100 and the absolute difference is at most 0.01, or the maximum is at least
100 and the relative difference is at most 0.02. -/
theorem valuesMatch_spec (a b : ℚ) :
    valuesMatch a b = true ↔
      (a = b ∨ (max a b < 100 ∧ |a - b| ≤ 0.01) ∨
        (100 ≤ max a b ∧ |a - b| / max a b ≤ 0.02)) := by
  unfold valuesMatch NUMERIC_TOLERANCE PERCENTAGE_TOLERANCE
  split_ifs with h1 h2
  · simp [h1]
  · simp only [decide_eq_true_eq]
    constructor
    · intro h
      exact Or.inr (Or.inl ⟨h2, h⟩)
    · rintro (rfl | ⟨_, h⟩ | ⟨h100, _⟩)
      · exact absurd rfl h1
      · exact h
      · exact absurd h100 (not_le.mpr h2)
  · simp only [decide_eq_true_eq]
    constructor
    · intro h
      exact Or.inr (Or.inr ⟨not_lt.mp h2, h⟩)
    · rintro (rfl | ⟨hlt, _⟩ | ⟨_, h⟩)
      · exact absurd rfl h1
      · exact absurd hlt h2
      · exact h

/-- Claim C8: `valuesMatch` is reflexive and symmetric. -/
theorem valuesMatch_refl_symm :
    (∀ x : ℚ, valuesMatch x x = true) ∧
    (∀ a b : ℚ, valuesMatch a b = valuesMatch b a) := by
  constructor
  · intro x
    unfold valuesMatch
    rw [if_pos rfl]
  · intro a b
    unfold valuesMatch
    by_cases hab : a = b
    · subst hab
      rfl
    · have hba : ¬ b = a := fun h => hab h.symm
      rw [if_neg hab, if_neg hba, abs_sub_comm a b, max_comm a b]

/-! ## Claims about the cross-validation dispatcher and the transformer -/

def emptyFields : ExtractedFields := {}

/-- Claim C9: for every extracted document whose type is none of t4, t5,
rrsp-receipt, donation-receipt, `crossCheckDocument` returns isValid true
with empty discrepancies and empty matches. -/
theorem crossCheck_unknown_type (extracted : ExtractedDocumentData) (filing : TaxFiling)
    (h4 : extracted.documentType ≠ DocumentType.t4)
    (h5 : extracted.documentType ≠ DocumentType.t5)
    (hr : extracted.documentType ≠ DocumentType.rrspReceipt)
    (hd : extracted.documentType ≠ DocumentType.donationReceipt) :
    crossCheckDocument extracted filing =
      { isValid := true, discrepancies := [], «matches» := [] } := by
  obtain ⟨dt, fields⟩ := extracted
  cases dt <;> first | rfl | (exact absurd rfl (by assumption))

/-- Claim C9, witness: a document of type `other` against the empty filing
silently validates. -/
theorem crossCheck_unknown_type_witness :
    crossCheckDocument { documentType := DocumentType.other, fields := emptyFields } emptyFiling
      = { isValid := true, discrepancies := [], «matches» := [] } :=
  crossCheck_unknown_type
    { documentType := DocumentType.other, fields := emptyFields } emptyFiling
    (by simp) (by simp) (by simp) (by simp)

def t4rspSlipW : T4RSPSlip := { rrspIncome := 10000, incomeTaxDeducted := 500 }

def filingW10 : TaxFiling :=
  { income := { emptyIncome with t4rspSlips := [t4rspSlipW] }, deductions := emptyDeductions }

def zeroSummary : TaxSummary :=
  { totalIncome := 0, totalDeductions := 0, taxableIncome := 0, federalTax := 0
    provincialTax := 0, totalTax := 0, totalCredits := 0, totalPaid := 0, refundOrOwing := 0 }

/-- Claim C10: the submission transformer sums withheld tax over t4, t4a and
t4e slips only, while the calculation engine totalPaid also includes t4rsp
withholding; hence a filing with a retirement slip carrying nonzero
(nonnegative) withheld tax makes the transformer field strictly smaller. -/
theorem netfile_withholding_excludes_t4rsp :
    (∀ (filing : TaxFiling) (summary : TaxSummary),
      (transformFilingToNetfile filing summary).income.totalTaxWithheld =
        sumBy filing.income.t4Slips (fun slip => slip.incomeTaxDeducted) +
        sumBy filing.income.t4aSlips (fun slip => slip.incomeTaxDeducted) +
        sumBy filing.income.t4eSlips (fun slip => slip.incomeTaxDeducted))
    ∧ (∀ filing : TaxFiling,
        (calculateSummary filing).totalPaid =
          sumBy filing.income.t4Slips (fun slip => slip.incomeTaxDeducted) +
          sumBy filing.income.t4aSlips (fun slip => slip.incomeTaxDeducted) +
          sumBy filing.income.t4eSlips (fun slip => slip.incomeTaxDeducted) +
          sumBy filing.income.t4rspSlips (fun slip => slip.incomeTaxDeducted))
    ∧ (∀ (filing : TaxFiling) (summary : TaxSummary),
        (∀ slip ∈ filing.income.t4rspSlips, 0 ≤ slip.incomeTaxDeducted) →
        (∃ slip ∈ filing.income.t4rspSlips, slip.incomeTaxDeducted ≠ 0) →
        (transformFilingToNetfile filing summary).income.totalTaxWithheld <
          (calculateSummary filing).totalPaid) := by
  refine ⟨fun filing summary => rfl, fun filing => rfl, ?_⟩
  intro filing summary h0 hex
  have key : (calculateSummary filing).totalPaid
      = (transformFilingToNetfile filing summary).income.totalTaxWithheld
        + sumBy filing.income.t4rspSlips (fun slip => slip.incomeTaxDeducted) := rfl
  have hpos : 0 < sumBy filing.income.t4rspSlips (fun slip => slip.incomeTaxDeducted) := by
    apply sumBy_pos
    · exact h0
    · obtain ⟨slip, hmem, hne⟩ := hex
      exact ⟨slip, hmem, hne⟩
  linarith

/-- Claim C10, witness: the strict inequality at a concrete filing holding a
single retirement slip with withheld tax 500. -/
theorem netfile_withholding_excludes_t4rsp_witness :
    (transformFilingToNetfile filingW10 zeroSummary).income.totalTaxWithheld <
      (calculateSummary filingW10).totalPaid :=
  netfile_withholding_excludes_t4rsp.2.2 filingW10 zeroSummary
    (by
      intro slip h
      simp only [filingW10, emptyIncome] at h
      simp only [List.mem_singleton] at h
      subst h
      norm_num [t4rspSlipW])
    ⟨t4rspSlipW, by simp [filingW10, emptyIncome], by norm_num [t4rspSlipW]⟩

/-! ## Claims about employment-slip cross-checking -/

lemma findT4_foldl_lt (extractedData : ExtractedFields) :
    ∀ (l : List T4Slip) (acc : Option T4Slip × Nat),
      (∀ slip ∈ l, t4MatchScore extractedData slip < 3) → acc.2 < 3 →
      (l.foldl
        (fun acc slip =>
          let score := t4MatchScore extractedData slip
          if score > acc.2 then (some slip, score) else acc)
        acc).2 < 3 := by
  intro l
  induction l with
  | nil =>
    intro acc _ hacc
    simpa using hacc
  | cons s rest ih =>
    intro acc hl hacc
    simp only [List.foldl_cons]
    apply ih _ (fun slip hs => hl slip (List.mem_cons_of_mem s hs))
    dsimp only
    split_ifs with hgt
    · exact hl s (List.mem_cons_self s rest)
    · exact hacc

lemma findMatchingT4_score_lt (extractedData : ExtractedFields) (t4Slips : List T4Slip)
    (h : ∀ slip ∈ t4Slips, t4MatchScore extractedData slip < 3) :
    (findMatchingT4 extractedData t4Slips).2 < 3 := by
  unfold findMatchingT4
  exact findT4_foldl_lt extractedData t4Slips (none, 0) h (by norm_num)

lemma valuesMatch_eq_false (a b : ℚ) (hne : a ≠ b)
    (h1 : max a b < 100 → ¬ |a - b| ≤ NUMERIC_TOLERANCE)
    (h2 : ¬ max a b < 100 → ¬ |a - b| / max a b ≤ PERCENTAGE_TOLERANCE) :
    valuesMatch a b = false := by
  unfold valuesMatch
  rw [if_neg hne]
  split_ifs with hm
  · exact decide_eq_false (h1 hm)
  · exact decide_eq_false (h2 hm)

/-- Claim C4, amended: for an extracted employment document with positive
extracted income, PROVIDED the filing holds at least one employment slip, if
no slip reaches match score 3 and no slip income `valuesMatch`es the
extracted income, `crossCheckDocument` emits exactly the info-type,
low-priority new-record suggestion. (The source emits nothing when the
filing has zero employment slips, so the claim is amended to require a
nonempty slip list.) -/
theorem new_t4_detected_amended (extractedData : ExtractedFields) (filing : TaxFiling)
    (hinc : extractedData.employmentIncome > 0)
    (hne : filing.income.t4Slips ≠ [])
    (hscore : ∀ slip ∈ filing.income.t4Slips, t4MatchScore extractedData slip < 3)
    (hnear : ∀ slip ∈ filing.income.t4Slips,
        valuesMatch extractedData.employmentIncome slip.employmentIncome = false) :
    (crossCheckDocument { documentType := DocumentType.t4, fields := extractedData }
        filing).discrepancies = [newT4Suggestion]
    ∧ newT4Suggestion.type = SuggestionType.info
    ∧ newT4Suggestion.priority = Priority.low := by
  refine ⟨?_, rfl, rfl⟩
  have hlt := findMatchingT4_score_lt extractedData filing.income.t4Slips hscore
  have hbranch : validateT4 extractedData filing
      = t4NoMatchBranch extractedData.employmentIncome filing := by
    unfold validateT4
    cases hfm : findMatchingT4 extractedData filing.income.t4Slips with
    | mk opt k =>
      rw [hfm] at hlt
      cases opt with
      | none => rfl
      | some s =>
        simp only
        rw [if_neg (by simpa using Nat.not_le.mpr hlt)]
  show validateT4 extractedData filing = [newT4Suggestion]
  rw [hbranch]
  unfold t4NoMatchBranch
  rw [if_pos ⟨hinc, List.length_pos.mpr hne⟩]
  have hfind : filing.income.t4Slips.find?
      (fun slip => valuesMatch extractedData.employmentIncome slip.employmentIncome) = none := by
    apply List.find?_eq_none.mpr
    intro x hx
    simp [hnear x hx]
  rw [hfind]

def edC4 : ExtractedFields := { employmentIncome := 50000 }

/-- Claim C4, counterexample: an extracted employment document with income
50000 against a filing with ZERO employment slips produces no suggestion at
all, refuting the parenthetical of the claim. -/
theorem new_t4_cex :
    edC4.employmentIncome > 0
    ∧ emptyFiling.income.t4Slips = []
    ∧ (crossCheckDocument { documentType := DocumentType.t4, fields := edC4 }
        emptyFiling).discrepancies = [] := by
  refine ⟨by norm_num [edC4], rfl, ?_⟩
  show validateT4 edC4 emptyFiling = []
  unfold validateT4 findMatchingT4 t4NoMatchBranch
  simp [emptyFiling, emptyIncome]

def t4SlipW : T4Slip :=
  { employerName := "Acme", employmentIncome := 80000, incomeTaxDeducted := 0
    cppContributions := 0, eiPremiums := 0, rppContributions := 0, unionDues := 0
    charitableDonations := 0 }

def filingW4 : TaxFiling :=
  { income := { emptyIncome with t4Slips := [t4SlipW] }, deductions := emptyDeductions }

lemma valuesMatch_50000_80000 : valuesMatch (50000 : ℚ) 80000 = false := by
  apply valuesMatch_eq_false
  · norm_num
  · intro h
    rw [max_eq_right (by norm_num : (50000:ℚ) ≤ 80000)] at h
    norm_num at h
  · intro _
    rw [max_eq_right (by norm_num : (50000:ℚ) ≤ 80000)]
    rw [abs_of_nonpos (by norm_num : (50000:ℚ) - 80000 ≤ 0)]
    norm_num [PERCENTAGE_TOLERANCE]

lemma t4MatchScore_W : t4MatchScore edC4 t4SlipW < 3 := by
  have hemp : (strToLower "" == "") = true := by decide
  unfold t4MatchScore edC4 t4SlipW
  simp only [hemp]
  norm_num [valuesMatch_50000_80000]

/-- Claim C4, witness: the amended theorem at a concrete document (income
50000) against a filing holding one non-matching slip (income 80000). -/
theorem new_t4_detected_amended_witness :
    (crossCheckDocument { documentType := DocumentType.t4, fields := edC4 }
        filingW4).discrepancies = [newT4Suggestion] :=
  (new_t4_detected_amended edC4 filingW4 (by norm_num [edC4])
    (by simp [filingW4, emptyIncome])
    (by
      intro slip h
      simp only [filingW4, emptyIncome, List.mem_singleton] at h
      subst h
      exact t4MatchScore_W)
    (by
      intro slip h
      simp only [filingW4, emptyIncome, List.mem_singleton] at h
      subst h
      exact valuesMatch_50000_80000)).1

/-! ## Claims about multi-document aggregation -/

lemma dedupByTitle_sublist (seen : List String) (l : List TaxSuggestion) :
    (dedupByTitle seen l).Sublist l := by
  induction l generalizing seen with
  | nil => simp [dedupByTitle]
  | cons s rest ih =>
    by_cases h : s.title ∈ seen
    · rw [dedupByTitle, if_pos h]
      exact (ih seen).cons s
    · rw [dedupByTitle, if_neg h]
      exact (ih (s.title :: seen)).cons₂ s

lemma dedupByTitle_not_mem_seen (seen : List String) (l : List TaxSuggestion) :
    ∀ t ∈ dedupByTitle seen l, t.title ∉ seen := by
  induction l generalizing seen with
  | nil => simp [dedupByTitle]
  | cons s rest ih =>
    intro t ht
    by_cases h : s.title ∈ seen
    · rw [dedupByTitle, if_pos h] at ht
      exact ih seen t ht
    · rw [dedupByTitle, if_neg h] at ht
      rcases List.mem_cons.mp ht with rfl | ht'
      · exact h
      · intro hmem
        exact ih (s.title :: seen) t ht' (List.mem_cons_of_mem _ hmem)

lemma dedupByTitle_titles_nodup (seen : List String) (l : List TaxSuggestion) :
    ((dedupByTitle seen l).map (fun s => s.title)).Nodup := by
  induction l generalizing seen with
  | nil => simp [dedupByTitle]
  | cons s rest ih =>
    by_cases h : s.title ∈ seen
    · rw [dedupByTitle, if_pos h]
      exact ih seen
    · rw [dedupByTitle, if_neg h]
      simp only [List.map_cons, List.nodup_cons]
      refine ⟨?_, ih (s.title :: seen)⟩
      intro hmem
      obtain ⟨t, ht, htitle⟩ := List.mem_map.mp hmem
      exact dedupByTitle_not_mem_seen _ _ t ht (htitle ▸ List.mem_cons_self _ _)

lemma dedupByTitle_covers (seen : List String) (l : List TaxSuggestion) :
    ∀ s ∈ l, s.title ∉ seen → ∃ t ∈ dedupByTitle seen l, t.title = s.title := by
  induction l generalizing seen with
  | nil => simp
  | cons a rest ih =>
    intro s hs hseen
    by_cases h : a.title ∈ seen
    · rw [dedupByTitle, if_pos h]
      rcases List.mem_cons.mp hs with rfl | hs'
      · exact absurd h hseen
      · exact ih seen s hs' hseen
    · rw [dedupByTitle, if_neg h]
      rcases List.mem_cons.mp hs with rfl | hs'
      · exact ⟨s, List.mem_cons_self _ _, rfl⟩
      · by_cases heq : s.title = a.title
        · exact ⟨a, List.mem_cons_self _ _, heq.symm⟩
        · obtain ⟨t, ht, htt⟩ := ih (a.title :: seen) s hs' (by
            intro hmem
            rcases List.mem_cons.mp hmem with h1 | h2
            · exact heq h1
            · exact hseen h2)
          exact ⟨t, List.mem_cons_of_mem _ ht, htt⟩

lemma dedupByTitle_first (seen : List String) (l : List TaxSuggestion) :
    ∀ t ∈ dedupByTitle seen l, l.find? (fun s => s.title == t.title) = some t := by
  induction l generalizing seen with
  | nil => simp [dedupByTitle]
  | cons a rest ih =>
    intro t ht
    by_cases h : a.title ∈ seen
    · rw [dedupByTitle, if_pos h] at ht
      have hfa : (a.title == t.title) = false := by
        refine beq_eq_false_iff_ne.mpr ?_
        intro he
        exact dedupByTitle_not_mem_seen seen rest t ht (he ▸ h)
      simp only [List.find?_cons, hfa]
      exact ih seen t ht
    · rw [dedupByTitle, if_neg h] at ht
      rcases List.mem_cons.mp ht with rfl | ht'
      · simp
      · have hfa : (a.title == t.title) = false := by
          refine beq_eq_false_iff_ne.mpr ?_
          intro he
          exact dedupByTitle_not_mem_seen _ _ t ht' (he ▸ List.mem_cons_self _ _)
        simp only [List.find?_cons, hfa]
        exact ih (a.title :: seen) t ht'

def docR1 : ExtractedDocumentData :=
  { documentType := DocumentType.rrspReceipt, fields := { contributionAmount := 1000 } }

def docR2 : ExtractedDocumentData :=
  { documentType := DocumentType.rrspReceipt, fields := { contributionAmount := 2000 } }

/-- Claim C7: `validateAllDocuments` returns the per-document suggestions
concatenated in document order with duplicates removed by title, keeping the
first occurrence of each title; the result is an order-preserving sublist of
the concatenation with pairwise-distinct titles covering every title, each
kept element being the first of its title. Two documents each producing the
suggestion titled RRSP Contribution Not Claimed yield exactly one. -/
theorem validateAllDocuments_dedup :
    (∀ (docs : List ExtractedDocumentData) (filing : TaxFiling),
      (validateAllDocuments docs filing).Sublist (allSuggestions docs filing)
      ∧ ((validateAllDocuments docs filing).map (fun s => s.title)).Nodup
      ∧ (∀ s ∈ allSuggestions docs filing,
          ∃ t ∈ validateAllDocuments docs filing, t.title = s.title)
      ∧ (∀ t ∈ validateAllDocuments docs filing,
          (allSuggestions docs filing).find? (fun s => s.title == t.title) = some t))
    ∧ (crossCheckDocument docR1 emptyFiling).discrepancies = [rrspNotClaimedSuggestion 1000]
    ∧ (crossCheckDocument docR2 emptyFiling).discrepancies = [rrspNotClaimedSuggestion 2000]
    ∧ validateAllDocuments [docR1, docR2] emptyFiling = [rrspNotClaimedSuggestion 1000] := by
  refine ⟨?_, ?_, ?_, ?_⟩
  · intro docs filing
    refine ⟨dedupByTitle_sublist [] _, dedupByTitle_titles_nodup [] _, ?_, ?_⟩
    · intro s hs
      exact dedupByTitle_covers [] _ s hs (by simp)
    · intro t ht
      exact dedupByTitle_first [] _ t ht
  · show validateRRSP docR1.fields emptyFiling = [rrspNotClaimedSuggestion 1000]
    unfold validateRRSP docR1
    norm_num [emptyFiling, emptyDeductions, sumBy]
  · show validateRRSP docR2.fields emptyFiling = [rrspNotClaimedSuggestion 2000]
    unfold validateRRSP docR2
    norm_num [emptyFiling, emptyDeductions, sumBy]
  · have h1 : (crossCheckDocument docR1 emptyFiling).discrepancies
        = [rrspNotClaimedSuggestion 1000] := by
      show validateRRSP docR1.fields emptyFiling = [rrspNotClaimedSuggestion 1000]
      unfold validateRRSP docR1
      norm_num [emptyFiling, emptyDeductions, sumBy]
    have h2 : (crossCheckDocument docR2 emptyFiling).discrepancies
        = [rrspNotClaimedSuggestion 2000] := by
      show validateRRSP docR2.fields emptyFiling = [rrspNotClaimedSuggestion 2000]
      unfold validateRRSP docR2
      norm_num [emptyFiling, emptyDeductions, sumBy]
    have hall : allSuggestions [docR1, docR2] emptyFiling
        = [rrspNotClaimedSuggestion 1000, rrspNotClaimedSuggestion 2000] := by
      unfold allSuggestions
      rw [List.map_cons, List.map_cons, List.map_nil, h1, h2]
      rfl
    unfold validateAllDocuments
    rw [hall]
    unfold dedupByTitle
    simp [rrspNotClaimedSuggestion, dedupByTitle]

/-- Claim C7, witness: the coverage conjunct applied at the two concrete
retirement-receipt documents against the empty filing. -/
theorem validateAllDocuments_dedup_witness :
    ∃ t ∈ validateAllDocuments [docR1, docR2] emptyFiling,
      t.title = "RRSP Contribution Not Claimed" := by
  apply (validateAllDocuments_dedup.1 [docR1, docR2] emptyFiling).2.2.1
    (rrspNotClaimedSuggestion 1000)
  have h1 := validateAllDocuments_dedup.2.1
  show rrspNotClaimedSuggestion 1000 ∈ allSuggestions [docR1, docR2] emptyFiling
  unfold allSuggestions
  simp only [List.map_cons, List.map_nil, h1]
  simp

end Taxxon
